import Mathlib

/-!
Verification of the session-automation core of pyvty (src/pyvty.py).

The Python module drives an interactive terminal session over a scripted
byte-stream transport.  We shallowly embed the `Terminal` class: its text
buffer, matcher state and banner state become a `Session` record, the
transport becomes an explicit script of chunks (each list element is what
one non-blocking `_read` call returns; a write releases the next scripted
response burst, modelling a request/response device), and the regular
expressions used by the code are interpreted by a small backtracking
engine with Python `re` semantics (leftmost match position, left-biased
alternation, greedy quantifiers, MULTILINE anchors).  Timeout loops are
modelled by a fuel parameter: one unit of fuel is one round of the
poll/sleep loop, and running out of fuel is exactly the source's timeout
path.  Wall-clock delays, the adaptive this_delay/max_delay bookkeeping
and the early-exit heuristic of `update_buffer` affect only timing, never
which bytes are appended, and are abstracted away.
-/

set_option maxRecDepth 4000

/-- Decoded text, as Python `str`: a list of characters. -/
abbrev Str := List Char

/-- Turn a Lean string literal into the `Str` representation. -/
def str (s : String) : Str := s.data

/-! ## A small regex engine with Python `re` semantics

Only the constructs appearing in pyvty's patterns are included:
literals, character classes, `+` over a class, `?`, concatenation,
alternation `|`, the MULTILINE anchors `^` and `$`, and single-character
negative lookbehind `(?<!...)` (used by `update_buffer`'s heuristic). -/

inductive RE where
  | eps : RE
  | lit : Str → RE
  | cls : (Char → Bool) → RE
  | plus : (Char → Bool) → RE
  | opt : RE → RE
  | seq : RE → RE → RE
  | alt : RE → RE → RE
  | bol : RE
  | eol : RE
  | nlb : (Char → Bool) → RE

/-- Rests after matching one-or-more class characters, greedily:
the longest run first, backing off to a single character. -/
def plusRests (f : Char → Bool) : Str → List Str
  | [] => []
  | c :: t => if f c then plusRests f t ++ [t] else []

/-- All ways to match `r` at the current position, in Python's backtracking
preference order.  `left` is the reversed text before the position (read
only by `bol` and `nlb`); `s` is the text from the position on.  Each
result is the rest of `s` after the consumed part. -/
def reTry : RE → Str → Str → List Str
  | .eps, _, s => [s]
  | .lit cs, _, s => if cs.isPrefixOf s then [s.drop cs.length] else []
  | .cls f, _, s =>
    match s with
    | c :: t => if f c then [t] else []
    | [] => []
  | .plus f, _, s => plusRests f s
  | .opt r, left, s => reTry r left s ++ [s]
  | .seq a b, left, s =>
    (reTry a left s).flatMap fun t =>
      reTry b ((s.take (s.length - t.length)).reverse ++ left) t
  | .alt a b, left, s => reTry a left s ++ reTry b left s
  | .bol, left, s => if left = [] || left.head? = some '\n' then [s] else []
  | .eol, _, s => if s = [] || s.head? = some '\n' then [s] else []
  | .nlb f, left, s =>
    match left with
    | c :: _ => if f c then [] else [s]
    | [] => [s]

/-- `re.search` driver: try each position from the left; at the first
position where the pattern matches, return
(text before the match, matched text, text after the match). -/
def searchGo (r : RE) : Str → Str → Option (Str × Str × Str)
  | left, [] =>
    match reTry r left [] with
    | t :: _ => some ([], [], t)
    | [] => none
  | left, c :: s =>
    match reTry r left (c :: s) with
    | t :: _ => some ([], (c :: s).take ((c :: s).length - t.length), t)
    | [] => (searchGo r (c :: left) s).map fun p => (c :: p.1, p.2.1, p.2.2)

/-- `re.search(r, s)` as a (pre, match, post) split at the first match. -/
def searchRE (r : RE) (s : Str) : Option (Str × Str × Str) :=
  searchGo r [] s

/-- Patterns that never read the text to the left of the current position:
no `^` anchor and no lookbehind.  For these, matching is independent of
the discarded prefix, which is what makes re-matching at the buffer head
reproduce the same match. -/
def noCtx : RE → Bool
  | .eps => true
  | .lit _ => true
  | .cls _ => true
  | .plus _ => true
  | .opt r => noCtx r
  | .seq a b => noCtx a && noCtx b
  | .alt a b => noCtx a && noCtx b
  | .bol => false
  | .eol => true
  | .nlb _ => false

/-! ## The concrete patterns of pyvty -/

/-- Python `\w`, ASCII range (the identifiers in play are ASCII). -/
def wordC (c : Char) : Bool := c.isAlphanum || c = '_'

/-- The class `[\w\-\:\.]`. -/
def wdotC (c : Char) : Bool := wordC c || c = '-' || c = ':' || c = '.'

/-- The class `[\>\$\#\%]`. -/
def termC (c : Char) : Bool := c = '>' || c = '$' || c = '#' || c = '%'

/-- The class `[\>\$\#]`. -/
def term3C (c : Char) : Bool := c = '>' || c = '$' || c = '#'

/-- The class `[\w\(\)]`. -/
def wparenC (c : Char) : Bool := wordC c || c = '(' || c = ')'

/-- The class `[\r\n]`. -/
def crlfC (c : Char) : Bool := c = '\r' || c = '\n'

/-- Right-nested concatenation of a list of patterns. -/
def seqs : List RE → RE
  | [] => .eps
  | [r] => r
  | r :: rs => .seq r (seqs rs)

/-- The pattern fragment ` ?`. -/
def optSp : RE := .opt (.lit [' '])

/-- The group `(\(\w[\w\-\:\.]+\) ?)?` of the canonical prompt. -/
def parenQual : RE :=
  .opt (seqs [.lit ['('], .cls wordC, .plus wdotC, .lit [')'], optSp])

/-- `self.prompt`, the canonical prompt regex
`[\r\n](\w[\w\-\:\.]+ ?(\(\w[\w\-\:\.]+\) ?)?[\>\$\#\%] ?)$` (MULTILINE). -/
def promptRE : RE :=
  seqs [.cls crlfC, .cls wordC, .plus wdotC, optSp, parenQual,
        .cls termC, optSp, .eol]

/-- `login_prompt = r'[Uu]sername|[Ll]ogin|[Nn]ame'`. -/
def loginPromptRE : RE :=
  .alt (.seq (.cls fun c => c = 'U' || c = 'u') (.lit (str ("sername"))))
    (.alt (.seq (.cls fun c => c = 'L' || c = 'l') (.lit (str ("ogin"))))
      (.seq (.cls fun c => c = 'N' || c = 'n') (.lit (str ("ame")))))

/-- `password_prompt = r'[Pp]assword'`. -/
def passwordPromptRE : RE :=
  .seq (.cls fun c => c = 'P' || c = 'p') (.lit (str ("assword")))

/-- `auth_fail = r'Authentication failed'`. -/
def authFailRE : RE := .lit (str ("Authentication failed"))

/-- The second alternative `[Pp]assword:? ?$` of `enable_privilege`'s
prompt, also its loop guard. -/
def pwdTailRE : RE :=
  seqs [.cls (fun c => c = 'P' || c = 'p'), .lit (str ("assword")),
        .opt (.lit [':']), optSp, .eol]

/-- `enable_privilege`'s prompt
`^\w[\w\(\)]+ ?[\>\$\#] ?$|[Pp]assword:? ?$` (MULTILINE). -/
def enablePromptRE : RE :=
  .alt (seqs [.bol, .cls wordC, .plus wparenC, optSp, .cls term3C, optSp, .eol])
    pwdTailRE

/-- The success test `r'# ?$'` of `enable_privilege`. -/
def hashEndRE : RE := seqs [.lit ['#'], optSp, .eol]


/-! ## Python string helpers used by the source -/

/-- Python `str.isspace` characters relevant here (`' \t\n\r\f\v'`). -/
def pySpaceC (c : Char) : Bool :=
  c = ' ' || c = '\t' || c = '\n' || c = '\r' || c = '\x0c' || c = '\x0b'

/-- Python `str.lstrip()`. -/
def pyLstrip (s : Str) : Str := s.dropWhile pySpaceC

/-- Worker for `pySplit`: `acc` is the current token, reversed. -/
def pySplitGo : Str → Str → List Str
  | acc, [] => if acc = [] then [] else [acc.reverse]
  | acc, c :: t =>
    if pySpaceC c then
      if acc = [] then pySplitGo [] t else acc.reverse :: pySplitGo [] t
    else pySplitGo (c :: acc) t

/-- Python `str.split()` with no argument: split on runs of whitespace,
dropping empty tokens. -/
def pySplit (s : Str) : List Str := pySplitGo [] s

/-- Worker for `pySplitlines`. -/
def pySplitlinesGo : Str → Str → List Str
  | acc, [] => if acc = [] then [] else [acc.reverse]
  | acc, '\r' :: '\n' :: t => acc.reverse :: pySplitlinesGo [] t
  | acc, '\r' :: t => acc.reverse :: pySplitlinesGo [] t
  | acc, '\n' :: t => acc.reverse :: pySplitlinesGo [] t
  | acc, c :: t => pySplitlinesGo (c :: acc) t

/-- Python `str.splitlines()` restricted to the line endings that occur in
this model (`\n`, `\r`, `\r\n`). -/
def pySplitlines (s : Str) : List Str := pySplitlinesGo [] s

/-- Split `s` at the first occurrence of the literal `m`, as Python
`s.split(m, 1)` preceded by the `m in s` test: `some (pre, post)` with
`s = pre ++ m ++ post` at the leftmost occurrence, `none` when `m` does
not occur.  (The source never calls this with an empty literal.) -/
def splitFirst (m : Str) : Str → Option (Str × Str)
  | [] => if m.isPrefixOf [] then some ([], []) else none
  | c :: t =>
    if m.isPrefixOf (c :: t) then some ([], (c :: t).drop m.length)
    else (splitFirst m t).map fun p => (c :: p.1, p.2)


/-! ## The Session state and the transport/device model

`pending` lists what each successive non-blocking `_read` call returns
(for the SSH adapter one `_read` drains everything currently available,
so one list element is one burst of arrived bytes).  `responses` is the
device script: a request/response device releases its next burst into
`pending` when the session writes a line.  `writes` logs every string
passed to the adapter's `_write`.  `trace` is ghost instrumentation
recording the order in which the high-level methods run; no behaviour
depends on it. -/

structure Session where
  terminal : Bool
  data_buffer : Str
  last_regex_match : Str
  prompt_matched : Bool
  banner : Option Char
  pending : List Str
  responses : List Str
  writes : List Str
  trace : List String
deriving DecidableEq

/-- The exceptions the modelled code can raise.  `outOfFuel` is a
modelling artefact: the fuel bound of an unbounded source loop ran out
(never hit in any theorem below). -/
inductive Err where
  | userWarning
  | nameError
  | socketError
  | outOfFuel
deriving DecidableEq

deriving instance DecidableEq for Except

/-- One non-blocking `_read`: the bytes currently available, or empty. -/
def transportRead (s : Session) : Str × Session :=
  match s.pending with
  | [] => ([], s)
  | c :: rest => (c, { s with pending := rest })

/-- Device model: a write releases the next scripted response burst. -/
def releaseResponse (s : Session) : Session :=
  match s.responses with
  | [] => s
  | r :: rest => { s with pending := s.pending ++ [r], responses := rest }

/-- The read loop of `update_buffer`, stripped of its timing bookkeeping:
keep appending while `_read` yields data; a read that yields nothing ends
the round (the idle budget expires).  Returns the new buffer, the
remaining pending bursts and whether anything was received. -/
def updateBufferGo : List Str → Str → Bool → Str × List Str × Bool
  | [], buf, res => (buf, [], res)
  | chunk :: rest, buf, res =>
    if chunk = [] then (buf, rest, res)
    else updateBufferGo rest (buf ++ chunk) true

/-- `Terminal.update_buffer`: reads all available output and appends it to
`data_buffer`; result is whether any data arrived. -/
def update_buffer (s : Session) : Session × Bool :=
  let (buf, pend, res) := updateBufferGo s.pending s.data_buffer false
  ({ s with data_buffer := buf, pending := pend }, res)

/-- The `while self.update_buffer():` inner loop of both read methods. -/
def drainLoop : Nat → Session → Session
  | 0, s => s
  | n + 1, s =>
    let p := update_buffer s
    if p.2 then drainLoop n p.1 else p.1

/-- Drain until a round receives nothing.  Every receiving round consumes
at least one pending burst, so `pending.length + 1` rounds suffice. -/
def drainAll (s : Session) : Session := drainLoop (s.pending.length + 1) s

/-- `Terminal.flush_buffer`: one `_read` (discarding the currently
available bytes), then clear the text buffer. -/
def flush_buffer (s : Session) : Session :=
  let p := transportRead s
  { p.2 with data_buffer := [] }

/-- `Terminal.write`.  With `send = False` the source formats the name
`command`, which is not bound anywhere in `write`'s scope, so Python
raises `NameError` before anything is returned; we model that branch as
the `nameError` exception.  Otherwise the text plus terminator goes to
the adapter and the scripted device releases its next burst. -/
def write (text endStr : Str) (send : Bool) (s : Session) :
    Except Err (Session × Bool) :=
  if !send then .error .nameError
  else
    .ok (releaseResponse { s with writes := s.writes ++ [text ++ endStr] }, true)

/-- `Terminal.read_until`: literal matching with a timeout loop.  One unit
of fuel is one round of the poll loop; fuel 0 is the timeout path, which
returns the whole buffer and flushes. -/
def read_until (m : Str) : Nat → Session → Str × Session
  | 0, s =>
    let out := s.data_buffer
    (out, flush_buffer s)
  | fuel + 1, s =>
    let s := drainAll s
    match splitFirst m s.data_buffer with
    | some (pre, post) => (pre, { s with data_buffer := m ++ post })
    | none => read_until m fuel s

/-- `Terminal.read_until_regex`: regex matching with a timeout loop.  On a
match, `prompt_matched` is set, the matched text is recorded and kept at
the head of the buffer.  On timeout (fuel 0) `prompt_matched` is cleared,
`last_regex_match` keeps its previous value, the whole buffer is returned
and the buffer flushed. -/
def read_until_regex (r : RE) : Nat → Session → Str × Session
  | 0, s =>
    let s := { s with prompt_matched := false }
    let out := s.data_buffer
    (out, flush_buffer s)
  | fuel + 1, s =>
    let s := drainAll s
    match searchRE r s.data_buffer with
    | some (pre, m, post) =>
      (pre, { s with prompt_matched := true, last_regex_match := m,
                     data_buffer := m ++ post })
    | none => read_until_regex r fuel s

/-- `Terminal.login`.  Returns `some true` on the already-logged-in
short-circuit, `none` (Python `None`) after a completed exchange; raises
`UserWarning` when the final match is a login prompt again or the
authentication-failure phrase. -/
def login (username password : Str) (fuel : Nat) (s : Session) :
    Except Err (Option Bool × Session) := do
  let s := { s with trace := s.trace ++ ["login"] }
  let s := (read_until_regex (.alt promptRE loginPromptRE) fuel s).2
  if (searchRE promptRE s.last_regex_match).isSome then
    return (some true, s)
  let (s, _) ← write username ['\n'] true s
  let s := (read_until_regex passwordPromptRE fuel s).2
  let (s, _) ← write password ['\n'] true s
  let s := (read_until_regex
    (.alt promptRE (.alt loginPromptRE authFailRE)) fuel s).2
  if (searchRE (.alt loginPromptRE authFailRE) s.last_regex_match).isSome then
    throw .userWarning
  return (none, s)

/-- The `while re.search(r'[Pp]assword:? ?$', current_match):` loop of
`enable_privilege`: answer each password challenge, re-read, and test the
final match for the privileged terminator.  `loopFuel` bounds the
unbounded source loop. -/
def enablePrivilegeGo (password : Str) (eFuel : Nat) :
    Nat → Str → Session → Except Err (Bool × Session)
  | 0, _, _ => .error .outOfFuel
  | loopFuel + 1, currentMatch, s =>
    if (searchRE pwdTailRE currentMatch).isSome then do
      let (s, _) ← write password ['\n'] true s
      let s := (read_until_regex enablePromptRE eFuel s).2
      enablePrivilegeGo password eFuel loopFuel s.last_regex_match s
    else .ok ((searchRE hashEndRE currentMatch).isSome, s)

/-- `Terminal.enable_privilege`: write the elevation command, wait for a
restricted prompt or a password challenge, answer challenges while they
recur, and succeed exactly when the final match ends in `#`. -/
def enable_privilege (command password : Str) (eFuel loopFuel : Nat)
    (s : Session) : Except Err (Bool × Session) := do
  let s := { s with trace := s.trace ++ ["enable_privilege"] }
  let (s, _) ← write command ['\n'] true s
  let s := (read_until_regex enablePromptRE eFuel s).2
  enablePrivilegeGo password eFuel loopFuel s.last_regex_match s

/-- The banner-checking block at the top of `Terminal._send_main`:
derive a delimiter character from a `banner` command, except that a
command of more than three tokens whose last token ends in the delimiter
is self-terminating; any other command leaves the banner state alone. -/
def bannerCheck (command : Str) (banner : Option Char) : Option Char :=
  let cl := pyLstrip command
  if (str ("banner")).isPrefixOf cl then
    let toks := pySplit cl
    let b : Option Char :=
      if toks.length > 2 then ((toks.get? 2).getD []).head?
      else ((toks.getLast?).getD []).head?
    if toks.length > 3 then
      if b = ((toks.getLast?).getD []).getLast? then none else b
    else b
  else banner

/-- `command.lstrip().startswith(self.banner)` for a one-character
delimiter. -/
def startsWithBanner (banner : Option Char) (command : Str) : Bool :=
  match banner with
  | some c => (pyLstrip command).head? = some c
  | none => false

/-- `self.timeout` default (20 s), as poll-loop fuel. -/
def defaultFuel : Nat := 20

/-- The `timeout=3` of `_send_main`'s echo wait, as fuel. -/
def echoFuel : Nat := 3

/-- The shortened `timeout = 0.2` of banner mode, as fuel. -/
def bannerFuel : Nat := 1

/-- `Terminal._send_main`: banner checking, write the command, skip the
echo of its first 20 characters (short bounded wait), wait for the
prompt, and leave banner mode when the prompt matched or the command
itself began with the delimiter. -/
def send_main (command : Str) (prompt : RE) (timeoutFuel : Nat)
    (s : Session) : Except Err (Str × Session) := do
  let s := { s with banner := bannerCheck command s.banner }
  let timeoutFuel := if s.banner.isSome then bannerFuel else timeoutFuel
  let (s, _) ← write command ['\n'] true s
  let (echoOut, s) :=
    if command ≠ [] then
      read_until (((pySplitlines command).headD []).take 20) echoFuel s
    else ([], s)
  let (promptOut, s) := read_until_regex prompt timeoutFuel s
  let result := (if command ≠ [] then echoOut else []) ++ promptOut
  let s :=
    if s.banner.isSome then
      if s.prompt_matched || startsWithBanner s.banner command then
        { s with banner := none }
      else s
    else s
  return (result, s)

/-- `Terminal.send`: with `send = False`, no transport I/O happens and a
marked preview is returned; otherwise defaults are filled in and
`_send_main` runs.  The result is split into lines. -/
def send (command : Str) (prompt : Option RE) (timeoutFuel : Option Nat)
    (sendFlag : Bool) (s : Session) : Except Err (List Str × Session) := do
  let s := { s with trace := s.trace ++ ["send"] }
  if !sendFlag then
    return (pySplitlines (str ("[SEND=FALSE] ") ++ command), s)
  else
    let prompt := prompt.getD promptRE
    let fuel := timeoutFuel.getD defaultFuel
    let (result, s) ← send_main command prompt fuel s
    return (pySplitlines result, s)

/-- The two transport variants. -/
inductive Protocol where
  | ssh
  | telnet
deriving DecidableEq

/-- `self.disable_paging` default. -/
def disable_paging : Str := str ("terminal length 0")

/-- `Terminal.connect`: no-op when already connected; error when no
protocol could be determined; construct the transport adapter (the SSH
adapter authenticates inside `paramiko` during construction, the Telnet
branch runs the interactive `login`); then, for the `cisco` platform,
elevate privilege and disable paging. -/
def connect (protocol : Option Protocol) (platform : String)
    (username password : Str) (fuel loopFuel : Nat) (s : Session) :
    Except Err (Bool × Session) := do
  if s.terminal then
    return (false, s)
  match protocol with
  | none => throw .socketError
  | some p =>
    let s := { s with terminal := true, trace := s.trace ++ ["adapter"] }
    let s ← match p with
      | .ssh => pure s
      | .telnet => do
        let (_, s) ← login username password fuel s
        pure s
    if platform = "cisco" then
      let (_, s) ← enable_privilege (str ("enable")) password fuel loopFuel s
      let (_, s) ← send disable_paging none none true s
      return (true, s)
    else
      return (true, s)

/-! ## Scripted sessions shared by the claims -/

/-- A fresh session with the given available bursts and device script. -/
def mkSess (pend resp : List Str) : Session :=
  { terminal := false, data_buffer := [], last_regex_match := [],
    prompt_matched := false, banner := none, pending := pend,
    responses := resp, writes := [], trace := [] }

/-- A burst presenting a login prompt. -/
def loginChunk : Str := str ("\r\nUsername: ")

/-- A burst presenting a password prompt. -/
def pwdChunk : Str := str ("\r\nPassword: ")

/-- A burst presenting the canonical (unprivileged) prompt. -/
def promptChunk : Str := str ("\r\ndev> ")

/-- A burst presenting the privileged prompt. -/
def hashChunk : Str := str ("\r\ndev# ")

/-- A burst presenting the unprivileged prompt, for elevation failure. -/
def gtChunk : Str := str ("\r\ndev> ")

/-- The password-prompt text that `enable_privilege`'s reads keep at the
head of the buffer. -/
def pwdStr : Str := str ("Password: ")

/-- A session holding text `ab`, one pending burst `cd`, and a stale
`last_regex_match` from an earlier success. -/
def staleSess : Session := { mkSess [str ("cd")] [] with
  data_buffer := str ("ab"),
  last_regex_match := str ("old") }

/-- A session holding text `ab` with one pending burst `cd`. -/
def abcdSess : Session := { mkSess [str ("cd")] [] with
  data_buffer := str ("ab") }

/-- The session right after sending `banner motd #` to a silent device:
banner mode is active with delimiter `#`. -/
def afterBannerSess : Session := { mkSess [] [] with
  banner := some '#',
  writes := [str ("banner motd #") ++ ['\n']] }

/-- Device script for an SSH-backed connect: a response to the elevation
command and one to the disable-paging command. -/
def sshScript : List Str := [hashChunk, str ("terminal length 0\r\ndev# ")]

/-- Device script for a Telnet-backed connect: password prompt and
canonical prompt for the interactive login, then the elevation and
disable-paging responses. -/
def telnetScript : List Str :=
  [pwdChunk, promptChunk, hashChunk, str ("terminal length 0\r\ndev# ")]

/-- The state `enable_privilege`'s loop reaches after the final prompt:
the final match is kept at the buffer head and every challenge was
answered once. -/
def enableRunEnd (n : Nat) (p : Str) (fm : Str) : Session :=
  { terminal := false, data_buffer := fm, last_regex_match := fm,
    prompt_matched := true, banner := none, pending := [], responses := [],
    writes := (str ("enable") ++ ['\n']) :: List.replicate n (p ++ ['\n']),
    trace := ["enable_privilege"] }

/-! Sanity checks of the engine against Python `re` behaviour. -/

example : searchRE passwordPromptRE (str ("ab Password: ")) =
    some (str ("ab "), str ("Password"), str (": ")) := by decide

example : searchRE promptRE (str ("x\ndev> ")) =
    some (str ("x"), str ("\ndev> "), []) := by decide

example : searchRE promptRE (str ("x\ndev(config)# ")) =
    some (str ("x"), str ("\ndev(config)# "), []) := by decide

example : searchRE promptRE (str ("dev> ")) = none := by decide

example : searchRE enablePromptRE (str ("\r\nPassword: ")) =
    some (str ("\r\n"), str ("Password: "), []) := by decide

example : searchRE enablePromptRE (str ("Password: \r\ndev# ")) =
    some (str ("Password: \r\n"), str ("dev# "), []) := by decide

example : searchRE hashEndRE (str ("dev# ")) = some (str ("dev"), str ("# "), []) := by
  decide

example : pySplitlines (str ("a\r\nb\nc")) = [str ("a"), str ("b"), str ("c")] := by
  decide

example : pySplit (str ("banner motd #hello#")) =
    [str ("banner"), str ("motd"), str ("#hello#")] := by decide

example : splitFirst (str ("ss")) (str ("password")) =
    some (str ("pa"), str ("word")) := by decide

/-! ## General lemmas about the buffer drain -/

theorem update_buffer_nil {s : Session} (h : s.pending = []) :
    update_buffer s = (s, false) := by
  cases s
  simp only at h
  subst h
  simp [update_buffer, updateBufferGo]

theorem drainLoop_nil {s : Session} (h : s.pending = []) :
    ∀ n, drainLoop n s = s
  | 0 => rfl
  | n + 1 => by simp [drainLoop, update_buffer_nil h]

theorem drainAll_nil {s : Session} (h : s.pending = []) : drainAll s = s :=
  drainLoop_nil h _

theorem updateBufferGo_all :
    ∀ (chunks : List Str), (∀ c ∈ chunks, c ≠ []) →
    ∀ (buf : Str) (res : Bool),
      updateBufferGo chunks buf res =
        (buf ++ chunks.flatten, [], res || !chunks.isEmpty)
  | [], _, buf, res => by simp [updateBufferGo]
  | c :: rest, h, buf, res => by
    have hc : ¬ (c = []) := h c (by simp)
    have ih := updateBufferGo_all rest (fun d hd => h d (by simp [hd])) (buf ++ c) true
    simp [updateBufferGo, hc, ih]

theorem update_buffer_all {s : Session} (h : ∀ c ∈ s.pending, c ≠ []) :
    update_buffer s =
      ({ s with data_buffer := s.data_buffer ++ s.pending.flatten, pending := [] },
       !s.pending.isEmpty) := by
  simp [update_buffer, updateBufferGo_all s.pending h]

theorem drainAll_all {s : Session} (h : ∀ c ∈ s.pending, c ≠ []) :
    drainAll s =
      { s with data_buffer := s.data_buffer ++ s.pending.flatten, pending := [] } := by
  rw [drainAll]
  rw [show s.pending.length + 1 = s.pending.length + 1 from rfl]
  rw [drainLoop]
  rw [update_buffer_all h]
  by_cases hp : s.pending.isEmpty
  · simp [hp]
  · simp only [hp, Bool.not_false]
    exact drainLoop_nil (by simp) _

/-! ## General lemmas about the regex engine -/

theorem flatMap_ext {α β : Type} (l : List α) (f g : α → List β)
    (h : ∀ a, f a = g a) : l.flatMap f = l.flatMap g := by
  have : f = g := funext h
  rw [this]

/-- Matching a pattern with no `^` and no lookbehind does not depend on
the text to the left of the match position. -/
theorem reTry_ctx : ∀ (r : RE), noCtx r = true →
    ∀ (l1 l2 s : Str), reTry r l1 s = reTry r l2 s
  | .eps, _, _, _, _ => rfl
  | .lit _, _, _, _, _ => rfl
  | .cls _, _, _, _, _ => rfl
  | .plus _, _, _, _, _ => rfl
  | .eol, _, _, _, _ => rfl
  | .opt r, h, l1, l2, s => by
    simp only [noCtx] at h
    simp [reTry, reTry_ctx r h l1 l2 s]
  | .seq a b, h, l1, l2, s => by
    simp only [noCtx, Bool.and_eq_true] at h
    simp only [reTry, reTry_ctx a h.1 l1 l2 s]
    exact flatMap_ext _ _ _ fun t =>
      reTry_ctx b h.2 ((s.take (s.length - t.length)).reverse ++ l1)
        ((s.take (s.length - t.length)).reverse ++ l2) t
  | .alt a b, h, l1, l2, s => by
    simp only [noCtx, Bool.and_eq_true] at h
    simp [reTry, reTry_ctx a h.1 l1 l2 s, reTry_ctx b h.2 l1 l2 s]

/-- One-step characterisation of `searchGo`, uniform in the shape of `s`. -/
theorem searchGo_eq (r : RE) (left s : Str) :
    searchGo r left s =
      match reTry r left s with
      | t :: _ => some ([], s.take (s.length - t.length), t)
      | [] =>
        match s with
        | [] => none
        | c :: s2 => (searchGo r (c :: left) s2).map fun p =>
            (c :: p.1, p.2.1, p.2.2) := by
  cases s with
  | nil =>
    cases htm : reTry r left [] with
    | nil => simp [searchGo, htm]
    | cons t ts => simp [searchGo, htm]
  | cons c s2 =>
    cases htm : reTry r left (c :: s2) with
    | nil => simp [searchGo, htm]
    | cons t ts => simp [searchGo, htm]

/-- If the first match of `r` in `pre ++ rest` begins exactly at the end
of `pre`, then `r` matches at the head of `rest`, its preferred match
there leaves exactly the reported `post`, and the reported matched text
is the corresponding prefix of `rest`. -/
theorem searchGo_split (r : RE) :
    ∀ (pre left rest m post : Str),
      searchGo r left (pre ++ rest) = some (pre, m, post) →
      (∃ tail, reTry r (pre.reverse ++ left) rest = post :: tail) ∧
      m = rest.take (rest.length - post.length)
  | [], left, rest, m, post => by
    intro hsf
    rw [List.nil_append, searchGo_eq] at hsf
    cases htm : reTry r left rest with
    | nil =>
      rw [htm] at hsf
      cases rest with
      | nil => simp at hsf
      | cons c s2 =>
        simp only [Option.map_eq_some'] at hsf
        obtain ⟨p, _, hp⟩ := hsf
        exact absurd (congrArg Prod.fst hp) (by simp)
    | cons t ts =>
      rw [htm] at hsf
      simp only [Option.some.injEq, Prod.mk.injEq] at hsf
      obtain ⟨-, hm, hp⟩ := hsf
      subst hp
      subst hm
      exact ⟨⟨ts, by simpa using htm⟩, rfl⟩
  | c :: pre2, left, rest, m, post => by
    intro hsf
    rw [List.cons_append, searchGo_eq] at hsf
    cases htm : reTry r left (c :: (pre2 ++ rest)) with
    | nil =>
      rw [htm] at hsf
      simp only [Option.map_eq_some'] at hsf
      obtain ⟨p, hin, hp⟩ := hsf
      have h1 : p.1 = pre2 := by
        have := congrArg Prod.fst hp
        simpa using this
      have h2 : p.2.1 = m := by
        have := congrArg (fun q => q.2.1) hp
        simpa using this
      have h3 : p.2.2 = post := by
        have := congrArg (fun q => q.2.2) hp
        simpa using this
      have hrec : searchGo r (c :: left) (pre2 ++ rest) = some (pre2, m, post) := by
        rw [hin]
        rw [show p = (p.1, p.2.1, p.2.2) from rfl, h1, h2, h3]
      have ih := searchGo_split r pre2 (c :: left) rest m post hrec
      refine ⟨?_, ih.2⟩
      obtain ⟨tail, htail⟩ := ih.1
      refine ⟨tail, ?_⟩
      rw [← htail]
      congr 1
      simp
    | cons t ts =>
      rw [htm] at hsf
      simp only [Option.some.injEq, Prod.mk.injEq] at hsf
      exact absurd hsf.1.symm (by simp)

/-- Re-matching at the head: once the first match of a context-free
pattern has been located right after `S`, searching the buffer that
starts at the match finds the same match at position 0. -/
theorem searchRE_head (r : RE) (h : noCtx r = true) (S M R : Str)
    (hs : searchRE r (S ++ (M ++ R)) = some (S, M, R)) :
    searchRE r (M ++ R) = some ([], M, R) := by
  have hsplit := searchGo_split r S [] (M ++ R) M R hs
  obtain ⟨⟨tail, htail⟩, hm⟩ := hsplit
  have htry : reTry r [] (M ++ R) = R :: tail := by
    rw [reTry_ctx r h [] (S.reverse ++ []) (M ++ R)]
    exact htail
  have hgo : searchGo r [] (M ++ R) =
      some ([], (M ++ R).take ((M ++ R).length - R.length), R) := by
    rw [searchGo_eq, htry]
  rw [searchRE, hgo, ← hm]


/-! ## Claim C9 -/

/-- Claim C9: for every sequence of non-empty chunks delivered by the
transport's non-blocking read during a drain (`update_buffer`), the text
buffer afterwards equals the buffer before the drain followed by the
concatenation of all decoded chunks in arrival order, with no reordering
or interleaving. -/
theorem update_buffer_concat (s : Session)
    (hne : ∀ c ∈ s.pending, c ≠ []) :
    (update_buffer s).1.data_buffer = s.data_buffer ++ s.pending.flatten := by
  rw [update_buffer_all hne]

/-- Witness for C9 at a concrete drain of two chunks. -/
theorem update_buffer_concat_witness :
    (∀ c ∈ (mkSess [str ("ab"), str ("cd")] []).pending, c ≠ []) ∧
    (update_buffer (mkSess [str ("ab"), str ("cd")] [])).1.data_buffer =
      (mkSess [str ("ab"), str ("cd")] []).data_buffer ++
        (mkSess [str ("ab"), str ("cd")] []).pending.flatten :=
  ⟨by decide, update_buffer_concat (mkSess [str ("ab"), str ("cd")] []) (by decide)⟩

/-! ## Claim C7 -/

/-- Claim C7: for every regex pattern and every prior value of
`last_regex_match`, when `read_until_regex` reaches its timeout without a
match (no match exists in what the buffer plus the drained data can ever
hold), `last_regex_match` is left unchanged — the stale value from a
prior success persists — and `prompt_matched` is set to false. -/
theorem read_until_regex_timeout_frame (r : RE) :
    ∀ (fuel : Nat) (s : Session), (∀ c ∈ s.pending, c ≠ []) →
    searchRE r (s.data_buffer ++ s.pending.flatten) = none →
    (read_until_regex r fuel s).2.last_regex_match = s.last_regex_match ∧
    (read_until_regex r fuel s).2.prompt_matched = false
  | 0, s, _, _ => by
    simp only [read_until_regex, flush_buffer, transportRead]
    cases hp : s.pending <;> simp
  | fuel + 1, s, hne, hnm => by
    obtain ⟨t, db, lm, pm, bn, pe, re, wr, tr⟩ := s
    simp only at hne hnm
    simp only [read_until_regex]
    rw [drainAll_all hne]
    simp only
    rw [hnm]
    have ih := read_until_regex_timeout_frame r fuel
      { terminal := t, data_buffer := db ++ pe.flatten, last_regex_match := lm,
        prompt_matched := pm, banner := bn, pending := [], responses := re,
        writes := wr, trace := tr }
      (by simp) (by simpa using hnm)
    simpa using ih


/-- Witness for C7: a timed-out regex wait keeps the stale match. -/
theorem read_until_regex_timeout_frame_witness :
    (∀ c ∈ staleSess.pending, c ≠ []) ∧
    (read_until_regex promptRE 2 staleSess).2.last_regex_match =
      staleSess.last_regex_match ∧
    (read_until_regex promptRE 2 staleSess).2.prompt_matched = false :=
  ⟨by decide,
   read_until_regex_timeout_frame promptRE 2 staleSess (by decide) (by decide)⟩

/-! ## Claim C6 -/

/-- On a drained session (`pending = []`) whose buffer never contains the
literal, `read_until` returns the buffer and flushes, for any fuel. -/
theorem read_until_none_drained (m : Str) :
    ∀ (fuel : Nat) (s : Session), s.pending = [] →
    splitFirst m s.data_buffer = none →
    read_until m fuel s =
      (s.data_buffer, { s with data_buffer := [], pending := [] })
  | 0, s, hp, _ => by
    obtain ⟨t, db, lm, pm, bn, pe, re, wr, tr⟩ := s
    simp only at hp
    subst hp
    simp [read_until, flush_buffer, transportRead]
  | fuel + 1, s, hp, hnm => by
    have ih := read_until_none_drained m fuel s hp hnm
    simp only [read_until]
    rw [drainAll_nil hp, hnm]
    exact ih

/-- Claim C6: for every literal pattern and every buffer content, when
`read_until` reaches its timeout without finding the literal substring
(the literal occurs nowhere in the buffer plus everything the transport
will deliver), it returns the entire accumulated buffer, discards the
pending bytes (leaving the text buffer empty), and returns normally —
its timeout path raises no exception. -/
theorem read_until_timeout_flush (m : Str) (fuel : Nat) (s : Session)
    (hf : fuel ≠ 0) (hne : ∀ c ∈ s.pending, c ≠ [])
    (hnm : splitFirst m (s.data_buffer ++ s.pending.flatten) = none) :
    read_until m fuel s =
      (s.data_buffer ++ s.pending.flatten,
       { s with data_buffer := [], pending := [] }) := by
  obtain ⟨fuel, rfl⟩ : ∃ g, fuel = g + 1 := by
    cases fuel with
    | zero => exact absurd rfl hf
    | succ g => exact ⟨g, rfl⟩
  obtain ⟨t, db, lm, pm, bn, pe, re, wr, tr⟩ := s
  simp only at hne hnm ⊢
  simp only [read_until]
  rw [drainAll_all hne]
  simp only
  rw [hnm]
  have := read_until_none_drained m fuel
    { terminal := t, data_buffer := db ++ pe.flatten, last_regex_match := lm,
      prompt_matched := pm, banner := bn, pending := [], responses := re,
      writes := wr, trace := tr } (by simp) (by simpa using hnm)
  simpa using this


/-- Witness for C6: a concrete timed-out literal wait. -/
theorem read_until_timeout_flush_witness :
    ((2 : Nat) ≠ 0 ∧ ∀ c ∈ abcdSess.pending, c ≠ []) ∧
    read_until (str ("zz")) 2 abcdSess =
      (abcdSess.data_buffer ++ abcdSess.pending.flatten,
       { abcdSess with data_buffer := [], pending := [] }) :=
  ⟨⟨by decide, by decide⟩,
   read_until_timeout_flush (str ("zz")) 2 abcdSess
     (by decide) (by decide) (by decide)⟩

/-! ## Claim C1 -/

/-- Counterexample to C1 as stated: with the pattern `aa`, the string
`S = xa` contains no match of the pattern, the buffer holds `S` followed
by the matching text `aa`, yet `read_until_regex` returns `x`, not `S`,
because the first match of the pattern in the combined buffer starts one
character before the end of `S` (a straddling match).  The match is still
anchored at the buffer head — but it is not the match the claim
describes. -/
theorem read_until_regex_claim_cex :
    searchRE (RE.lit (str ("aa"))) (str ("xa")) = none ∧
    reTry (RE.lit (str ("aa"))) [] (str ("aa")) = [[]] ∧
    (read_until_regex (RE.lit (str ("aa"))) 5
      { mkSess [] [] with data_buffer := str ("xaaa") }).1 = str ("x") ∧
    str ("x") ≠ str ("xa") ∧
    (read_until_regex (RE.lit (str ("aa"))) 5
      { mkSess [] [] with data_buffer := str ("xaaa") }).2.last_regex_match =
      str ("aa") ∧
    (read_until_regex (RE.lit (str ("aa"))) 5
      { mkSess [] [] with data_buffer := str ("xaaa") }).2.data_buffer =
      str ("aaa") := by
  decide

/-- Claim C1 (amended): for every pattern without `^` anchors or
lookbehind, whenever the first match of the pattern in the buffer
`S ++ M ++ R` is exactly `M`, starting right after `S` (so no match of
the pattern starts inside `S` or straddles its end), `read_until_regex`
on a quiescent session holding that buffer returns exactly `S`, sets
`last_regex_match` to the matched text `M`, and leaves the buffer
starting at the first character of the match; calling it again with the
same pattern before consuming further returns the empty string,
reproduces the same match at the buffer head, and leaves the session
unchanged. -/
theorem read_until_regex_anchor (r : RE) (hr : noCtx r = true)
    (S M R : Str) (s : Session)
    (hb : s.data_buffer = S ++ (M ++ R)) (hp : s.pending = [])
    (hs : searchRE r (S ++ (M ++ R)) = some (S, M, R)) (f g : Nat) :
    read_until_regex r (f + 1) s =
      (S, { s with prompt_matched := true, last_regex_match := M,
                   data_buffer := M ++ R }) ∧
    read_until_regex r (g + 1)
        { s with prompt_matched := true, last_regex_match := M,
                 data_buffer := M ++ R } =
      ([], { s with prompt_matched := true, last_regex_match := M,
                    data_buffer := M ++ R }) := by
  obtain ⟨t, db, lm, pm, bn, pe, re, wr, tr⟩ := s
  simp only at hb hp
  subst hb
  subst hp
  have hhead := searchRE_head r hr S M R hs
  constructor
  · simp only [read_until_regex]
    rw [drainAll_nil rfl]
    simp only
    rw [hs]
  · simp only [read_until_regex]
    rw [drainAll_nil rfl]
    simp only
    rw [hhead]

/-- Witness for C1 (amended): the password prompt pattern on the buffer
`ab` + newline + `Password` + `: `. -/
theorem read_until_regex_anchor_witness :
    (noCtx passwordPromptRE = true ∧
      searchRE passwordPromptRE (str ("ab\n") ++ (str ("Password") ++ str (": "))) =
        some (str ("ab\n"), str ("Password"), str (": "))) ∧
    (read_until_regex passwordPromptRE 1
        { mkSess [] [] with data_buffer := str ("ab\nPassword: ") } =
      (str ("ab\n"),
       { ({ mkSess [] [] with data_buffer := str ("ab\nPassword: ") } : Session) with
           prompt_matched := true, last_regex_match := str ("Password"),
           data_buffer := str ("Password") ++ str (": ") }) ∧
     read_until_regex passwordPromptRE 1
        { ({ mkSess [] [] with data_buffer := str ("ab\nPassword: ") } : Session) with
            prompt_matched := true, last_regex_match := str ("Password"),
            data_buffer := str ("Password") ++ str (": ") } =
      ([],
       { ({ mkSess [] [] with data_buffer := str ("ab\nPassword: ") } : Session) with
           prompt_matched := true, last_regex_match := str ("Password"),
           data_buffer := str ("Password") ++ str (": ") })) :=
  ⟨⟨by decide, by decide⟩,
   read_until_regex_anchor passwordPromptRE (by decide)
     (str ("ab\n")) (str ("Password")) (str (": "))
     { mkSess [] [] with data_buffer := str ("ab\nPassword: ") }
     (by decide) (by decide) (by decide) 0 0⟩

/-! ## Claim C2 -/

set_option maxHeartbeats 4000000 in
/-- Claim C2: for every username `u` and password `p`, when the incoming
buffer presents a login prompt, then a password prompt, then the
canonical prompt, `login u p` issues exactly two writes — the username,
then the password — and returns success (it completes without raising;
Python's fall-through return of `None` is modelled as `none`). -/
theorem login_two_writes (u p : Str) (f : Nat) :
    login u p (f + 1) (mkSess [loginChunk] [pwdChunk, promptChunk]) =
      .ok (none,
        { terminal := false, data_buffer := str ("\ndev> "),
          last_regex_match := str ("\ndev> "), prompt_matched := true,
          banner := none, pending := [], responses := [],
          writes := [u ++ ['\n'], p ++ ['\n']], trace := ["login"] }) := rfl

/-! ## Claim C8 -/

set_option maxHeartbeats 4000000 in
/-- Claim C8: for every username and password, when after the password is
written the buffer next presents a login prompt again, or the
authentication-failure phrase, `login` raises the authentication error
(`UserWarning`) to the caller. -/
theorem login_failure_raises (u p : Str) (f : Nat) :
    login u p (f + 1) (mkSess [loginChunk] [pwdChunk, loginChunk]) =
      .error .userWarning ∧
    login u p (f + 1)
        (mkSess [loginChunk]
          [pwdChunk, str ("\r\nAuthentication failed\r\n")]) =
      .error .userWarning :=
  ⟨rfl, rfl⟩

/-! ## Claim C10 -/

/-- Claim C10: for every text argument, calling `write` with
`send = False` raises a `NameError` — its preview branch formats the
variable `command`, which is undefined in `write`'s scope — rather than
returning the `[SEND=FALSE]` preview string; only the higher-level
`send` method with `send = False` produces the preview, and it does so
without transport I/O (the session is unchanged but for the ghost
trace). -/
theorem write_preview_name_error (text : Str) (s : Session) :
    write text ['\n'] false s = .error .nameError ∧
    send text none none false s =
      .ok (pySplitlines (str ("[SEND=FALSE] ") ++ text),
           { s with trace := s.trace ++ ["send"] }) :=
  ⟨rfl, rfl⟩

/-! ## Claim C4 -/


/-- Counterexample to C4 as stated: `banner motd #hello#` — the
delimiter character reappearing as the last character of the last
token — *does* enter banner mode: the command splits into only three
whitespace-separated tokens, and the self-terminating-banner check of
`_send_main` runs only for commands of more than three tokens, so the
banner delimiter stays set after the send (here the device stays silent,
so no prompt match clears it). -/
theorem banner_hello_cex :
    send_main (str ("banner motd #hello#")) promptRE 5 (mkSess [] []) =
      .ok ([], { mkSess [] [] with
        banner := some '#',
        writes := [str ("banner motd #hello#") ++ ['\n']] }) := by
  decide

/-- Claim C4 (amended): sending `banner motd #` sets the banner delimiter
to `#` and enters banner mode, remaining there until a send matches the
canonical prompt or a later command starts with the delimiter; sending
`banner motd #hello#` *also* enters banner mode, because the
self-terminating-banner check applies only to commands of more than
three whitespace-separated tokens; a four-token command such as
`banner motd # hello #`, whose delimiter reappears as the last character
of the last token, never enters banner mode. -/
theorem banner_mode_transitions :
    (send_main (str ("banner motd #")) promptRE 5 (mkSess [] []) =
      .ok ([], afterBannerSess)) ∧
    ((send_main (str ("#")) promptRE 5 afterBannerSess).map
      (fun x => x.2.banner) = .ok none) ∧
    ((send_main (str ("hello")) promptRE 5
        { afterBannerSess with responses := [str ("hello\r\ndev# ")] }).map
      (fun x => (x.2.banner, x.2.prompt_matched)) = .ok (none, true)) ∧
    ((send_main (str ("banner motd #hello#")) promptRE 5 (mkSess [] [])).map
      (fun x => x.2.banner) = .ok (some '#')) ∧
    ((send_main (str ("banner motd # hello #")) promptRE 5
        (mkSess [] [])).map (fun x => x.2.banner) = .ok none) := by
  decide

/-! ## Claim C5 -/


/-- Counterexample to C5 as stated: for the SSH-backed variant,
`connect()` never performs the interactive Login step — the ghost trace
of a completed SSH connect lists adapter construction, privilege
elevation and the disable-paging send, and contains no `login` entry. -/
theorem connect_ssh_skips_login_cex :
    (connect (some .ssh) "cisco" (str ("alice")) (str ("pw")) 5 5
        (mkSess [] sshScript)).map (fun x => x.2.trace) =
      .ok ["adapter", "enable_privilege", "send"] ∧
    ¬ (("login" : String) ∈ ["adapter", "enable_privilege", "send"]) := by
  decide

/-- Claim C5 (amended): `connect()` performs transport-adapter
construction, then — for the Telnet-backed variant only — Login (the
SSH-backed adapter authenticates during its construction, so the
interactive Login is skipped), then, when the platform is
prompt-privilege-based (`cisco`), Privilege Elevation followed by the
disable-paging command, before the session is ready. -/
theorem connect_sequence :
    connect (some .ssh) "cisco" (str ("alice")) (str ("pw")) 5 5
        (mkSess [] sshScript) =
      .ok (true,
        { terminal := true, data_buffer := str ("\ndev# "),
          last_regex_match := str ("\ndev# "), prompt_matched := true,
          banner := none, pending := [], responses := [],
          writes := [str ("enable") ++ ['\n'],
                     str ("terminal length 0") ++ ['\n']],
          trace := ["adapter", "enable_privilege", "send"] }) ∧
    connect (some .telnet) "cisco" (str ("alice")) (str ("pw")) 5 5
        (mkSess [loginChunk] telnetScript) =
      .ok (true,
        { terminal := true, data_buffer := str ("\ndev# "),
          last_regex_match := str ("\ndev# "), prompt_matched := true,
          banner := none, pending := [], responses := [],
          writes := [str ("alice") ++ ['\n'], str ("pw") ++ ['\n'],
                     str ("enable") ++ ['\n'],
                     str ("terminal length 0") ++ ['\n']],
          trace := ["adapter", "login", "enable_privilege", "send"] }) := by
  decide

/-! ## Claim C3 -/

theorem pwdTail_matches_pwdStr : (searchRE pwdTailRE pwdStr).isSome = true := by
  decide

theorem enableP_after_pwd :
    searchRE enablePromptRE (pwdStr ++ pwdChunk) =
      some (str ("Password: \r\n"), pwdStr, []) := by decide

theorem pwdChunk_ne : pwdChunk ≠ [] := by decide


/-- Run of the challenge loop: from a matched password prompt with `n`
further scripted challenges and then a final burst `fc` whose
`enable_privilege`-prompt match is `fm`, the loop answers each challenge
with exactly one password write and ends with the final match kept at
the buffer head. -/
theorem enableGo_run (p : Str) (ef : Nat) (fc fm : Str) (hfc : fc ≠ [])
    (hF2 : searchRE enablePromptRE (pwdStr ++ fc) =
      some (str ("Password: \r\n"), fm, []))
    (hfm : searchRE pwdTailRE fm = none) :
    ∀ (n lf : Nat) (s : Session), n + 2 ≤ lf →
      s.data_buffer = pwdStr → s.pending = [] →
      s.responses = List.replicate n pwdChunk ++ [fc] →
      enablePrivilegeGo p (ef + 1) lf pwdStr s =
        .ok ((searchRE hashEndRE fm).isSome,
          { s with data_buffer := fm, last_regex_match := fm,
                   prompt_matched := true, pending := [], responses := [],
                   writes := s.writes ++ List.replicate (n + 1) (p ++ ['\n']) })
  | 0, lf, s => by
    intro hlf hb hp hresp
    obtain ⟨t, db, lm, pm, bn, pe, re, wr, tr⟩ := s
    simp only at hb hp hresp
    subst hb
    subst hp
    subst hresp
    obtain ⟨l, rfl⟩ : ∃ l, lf = l + 2 := ⟨lf - 2, by omega⟩
    simp [enablePrivilegeGo, pwdTail_matches_pwdStr, write, releaseResponse,
      read_until_regex, drainAll, drainLoop, update_buffer, updateBufferGo,
      hfc, hF2, hfm, Except.bind, Bind.bind]
  | n + 1, lf, s => by
    intro hlf hb hp hresp
    obtain ⟨t, db, lm, pm, bn, pe, re, wr, tr⟩ := s
    simp only at hb hp hresp
    subst hb
    subst hp
    subst hresp
    obtain ⟨l, rfl⟩ : ∃ l, lf = l + 1 := ⟨lf - 1, by omega⟩
    have ih := enableGo_run p ef fc fm hfc hF2 hfm n l
    simp only [List.replicate_succ, List.cons_append]
    simp [enablePrivilegeGo, pwdTail_matches_pwdStr, write, releaseResponse,
      read_until_regex, drainAll, drainLoop, update_buffer, updateBufferGo,
      pwdChunk_ne, enableP_after_pwd, Except.bind, Bind.bind]
    rw [ih _ (by omega) rfl rfl rfl]
    simp [List.replicate_succ, List.append_assoc]

theorem enableP_pwdChunk :
    searchRE enablePromptRE pwdChunk = some (str ("\r\n"), pwdStr, []) := by
  decide

/-- A whole `enable_privilege` run over a script of `n` password
challenges followed by a final burst `fc` matching `fm`. -/
theorem enable_run (p : Str) (ef : Nat) (fc fm : Str) (hfc : fc ≠ [])
    (h0 : searchRE enablePromptRE fc = some (str ("\r\n"), fm, []))
    (hF2 : searchRE enablePromptRE (pwdStr ++ fc) =
      some (str ("Password: \r\n"), fm, []))
    (hfm : searchRE pwdTailRE fm = none)
    (n lf : Nat) (hlf : n + 2 ≤ lf) :
    enable_privilege (str ("enable")) p (ef + 1) lf
        (mkSess [] (List.replicate n pwdChunk ++ [fc])) =
      .ok ((searchRE hashEndRE fm).isSome, enableRunEnd n p fm) := by
  cases n with
  | zero =>
    obtain ⟨l, rfl⟩ : ∃ l, lf = l + 2 := ⟨lf - 2, by omega⟩
    simp [enable_privilege, enablePrivilegeGo, mkSess, enableRunEnd, write,
      releaseResponse, read_until_regex, drainAll, drainLoop, update_buffer,
      updateBufferGo, hfc, h0, hfm, Except.bind, Bind.bind]
  | succ m =>
    simp only [List.replicate_succ, List.cons_append]
    simp [enable_privilege, mkSess, write, releaseResponse, read_until_regex,
      drainAll, drainLoop, update_buffer, updateBufferGo, pwdChunk_ne,
      enableP_pwdChunk, Except.bind, Bind.bind]
    rw [enableGo_run p ef fc fm hfc hF2 hfm m lf _ (by omega) rfl rfl rfl]
    simp [enableRunEnd, List.replicate_succ]

/-- Claim C3: for every number `n` of password challenges followed by a
terminal prompt, `enable_privilege` answers each successive challenge
with exactly one password write (`n` password writes after the single
elevation-command write); it returns success exactly when the final
matched text ends in the privileged-prompt terminator `#` (final prompt
`dev# ` gives `true`, final prompt `dev> ` gives `false`), and the
failure is an ordinary return value, not an exception. -/
theorem enable_privilege_challenges (n : Nat) (p : Str) (ef lf : Nat)
    (hlf : n + 2 ≤ lf) :
    enable_privilege (str ("enable")) p (ef + 1) lf
        (mkSess [] (List.replicate n pwdChunk ++ [hashChunk])) =
      .ok (true, enableRunEnd n p (str ("dev# "))) ∧
    enable_privilege (str ("enable")) p (ef + 1) lf
        (mkSess [] (List.replicate n pwdChunk ++ [gtChunk])) =
      .ok (false, enableRunEnd n p (str ("dev> "))) := by
  constructor
  · rw [enable_run p ef hashChunk (str ("dev# ")) (by decide) (by decide)
      (by decide) (by decide) n lf hlf]
    rw [show (searchRE hashEndRE (str ("dev# "))).isSome = true from by decide]
  · rw [enable_run p ef gtChunk (str ("dev> ")) (by decide) (by decide)
      (by decide) (by decide) n lf hlf]
    rw [show (searchRE hashEndRE (str ("dev> "))).isSome = false from by decide]

/-- Witness for C3 at one challenge and loop fuel 5. -/
theorem enable_privilege_challenges_witness :
    ((1 : Nat) + 2 ≤ 5) ∧
    (enable_privilege (str ("enable")) (str ("sw")) (0 + 1) 5
        (mkSess [] (List.replicate 1 pwdChunk ++ [hashChunk])) =
      .ok (true, enableRunEnd 1 (str ("sw")) (str ("dev# "))) ∧
    enable_privilege (str ("enable")) (str ("sw")) (0 + 1) 5
        (mkSess [] (List.replicate 1 pwdChunk ++ [gtChunk])) =
      .ok (false, enableRunEnd 1 (str ("sw")) (str ("dev> ")))) :=
  ⟨by decide, enable_privilege_challenges 1 (str ("sw")) 0 5 (by decide)⟩
